import Mathlib

/-!
Verification of the tap_az scraper scripts (`laptops.py`, `robust_scraper.py`)
against their design specification.

Python strings are modelled as lists of characters (`PyStr`), bytes as lists of
naturals, and the BeautifulSoup DOM queries as abstract selection functions
supplied as parameters: every definition below mirrors the corresponding Python
function line by line, with Python exceptions modelled by `Option`.
-/

namespace TapAz

/-- A Python `str`, modelled as its sequence of characters (code points). -/
abbrev PyStr := List Char

/-- Embed a Lean string literal as a `PyStr`. -/
def pystr (s : String) : PyStr := s.toList

/-- The characters `str.split()` / `str.strip()` treat as whitespace
(ASCII range: space, tab, newline, carriage return, vertical tab, form feed). -/
def pyIsSpace (c : Char) : Bool :=
  c = ' ' || c = '\t' || c = '\n' || c = '\r' || c = '\x0b' || c = '\x0c'

/-- Fuel-indexed worker for `strReplace`; the fuel starts at the string length,
which always suffices because each step consumes at least one character. -/
def strReplaceFuel (pat rep : PyStr) : Nat → PyStr → PyStr
  | _, [] => []
  | 0, s => s
  | fuel + 1, c :: rest =>
    if pat ≠ [] ∧ pat.isPrefixOf (c :: rest) then
      rep ++ strReplaceFuel pat rep fuel ((c :: rest).drop pat.length)
    else
      c :: strReplaceFuel pat rep fuel rest

/-- Model of Python `s.replace(pat, rep)`: non-overlapping, left-to-right
replacement.  (The scripts never call `replace` with an empty pattern.) -/
def strReplace (pat rep s : PyStr) : PyStr := strReplaceFuel pat rep s.length s

/-- Model of Python `pat in s` substring containment. -/
def containsSub (pat : PyStr) : PyStr → Bool
  | [] => pat.isPrefixOf []
  | c :: rest => pat.isPrefixOf (c :: rest) || containsSub pat rest

/-- Model of Python `str.lower()` (ASCII case folding). -/
def pyLower (s : PyStr) : PyStr := s.map Char.toLower

/-- Model of Python `str.strip()`: drop leading and trailing whitespace. -/
def pyStripWs (s : PyStr) : PyStr :=
  ((s.dropWhile pyIsSpace).reverse.dropWhile pyIsSpace).reverse

/-- Model of Python `str.split()`: the nonempty maximal runs of
non-whitespace characters. -/
def pySplitWs (s : PyStr) : List PyStr :=
  (s.splitOnP pyIsSpace).filter (fun t => t ≠ [])

/-- `str.isdigit` for a single character (ASCII digits). -/
def pyIsDigitChar (c : Char) : Bool := decide ('0' ≤ c) && decide (c ≤ '9')

/-- Model of Python `str.isdigit()`: nonempty and all digits. -/
def pyIsDigit (s : PyStr) : Bool := decide (s ≠ []) && s.all pyIsDigitChar

/-- Numeric value of a digit string (most significant digit first). -/
def natOfDigits (s : PyStr) : Nat := s.foldl (fun a c => a * 10 + (c.toNat - 48)) 0

/-- Model of Python `s.split('.')`. -/
def splitOnDot : PyStr → List PyStr
  | [] => [[]]
  | c :: rest =>
    if c = '.' then [] :: splitOnDot rest
    else
      match splitOnDot rest with
      | [] => [[c]]
      | h :: t => (c :: h) :: t

/-! ## laptops.py: `TapAzScraperFixed._decompress_response`

Bytes are `List Nat` (each entry one byte), decoded text is the list of decoded
code points.  `gzip.decompress`, `zlib.decompress(·)` and
`zlib.decompress(·, -15)` are external library calls, supplied as parameters
returning `none` on failure (a raised exception). -/

/-- Is `b` a UTF-8 continuation byte (`10xxxxxx`)? -/
def isContByte (b : Nat) : Bool := decide (0x80 ≤ b) && decide (b < 0xC0)

/-- Decode one UTF-8 sequence whose lead byte is `b` and whose following bytes
are `rest`: the code point and the bytes left over, or `none` on malformed
input.  Rejects stray continuation bytes, overlong forms (lead bytes `C0`,
`C1`, and undersized 3- and 4-byte values), surrogates and code points above
U+10FFFF, as Python's strict `bytes.decode('utf-8')` does. -/
def utf8Step (b : Nat) (rest : List Nat) : Option (Nat × List Nat) :=
  if b < 0x80 then some (b, rest)
  else if b < 0xC2 then none
  else if b < 0xE0 then
    match rest with
    | b1 :: rest2 =>
      if isContByte b1 then some ((b - 0xC0) * 64 + (b1 - 0x80), rest2) else none
    | [] => none
  else if b < 0xF0 then
    match rest with
    | b1 :: b2 :: rest3 =>
      if isContByte b1 && isContByte b2 then
        let cp := (b - 0xE0) * 4096 + (b1 - 0x80) * 64 + (b2 - 0x80)
        if 0x800 ≤ cp ∧ ¬(0xD800 ≤ cp ∧ cp < 0xE000) then some (cp, rest3) else none
      else none
    | _ => none
  else if b < 0xF5 then
    match rest with
    | b1 :: b2 :: b3 :: rest4 =>
      if isContByte b1 && isContByte b2 && isContByte b3 then
        let cp := (b - 0xF0) * 262144 + (b1 - 0x80) * 4096 + (b2 - 0x80) * 64 + (b3 - 0x80)
        if 0x10000 ≤ cp ∧ cp ≤ 0x10FFFF then some (cp, rest4) else none
      else none
    | _ => none
  else none

/-- Fuel-indexed worker for `utf8Decode`; the fuel starts at the byte count,
which always suffices because each step consumes at least one byte. -/
def utf8DecodeFuel : Nat → List Nat → Option (List Nat)
  | _, [] => some []
  | 0, _ :: _ => none
  | fuel + 1, b :: rest =>
    match utf8Step b rest with
    | none => none
    | some pr => (utf8DecodeFuel fuel pr.2).map (fun t => pr.1 :: t)

/-- Strict UTF-8 decoding of a byte sequence, as performed by Python
`bytes.decode('utf-8')`: the code-point sequence on success, `none` on any
malformed input (where Python raises `UnicodeDecodeError`). -/
def utf8Decode (bs : List Nat) : Option (List Nat) := utf8DecodeFuel bs.length bs

/-- The two gzip magic bytes `1F 8B` tested by
`content.startswith(b'\x1f\x8b')`. -/
def gzipMagic : List Nat := [0x1f, 0x8b]

/-- The parts of a `requests` response object read by
`_decompress_response`: the raw body bytes and the library's own best-effort
text decoding (`response.text`), given as already-decoded code points. -/
structure PyResponse where
  content : List Nat
  text : List Nat

/-- Model of `TapAzScraperFixed._decompress_response` (laptops.py lines
64-113): try `content.decode('utf-8')`; on failure try gzip when the body has
the `1F 8B` magic, then zlib, then raw-deflate zlib, each followed by a UTF-8
decode; finally fall back to `response.text`.  Every library failure path is
an except-clause in the source, so the function always returns a string. -/
def decompress_response (gz zl zlr : List Nat → Option (List Nat))
    (response : PyResponse) : List Nat :=
  match utf8Decode response.content with
  | some t => t
  | none =>
    match (if gzipMagic.isPrefixOf response.content then gz response.content
           else none).bind utf8Decode with
    | some t => t
    | none =>
      match (zl response.content).bind utf8Decode with
      | some t => t
      | none =>
        match (zlr response.content).bind utf8Decode with
        | some t => t
        | none => response.text

/-! ## robust_scraper.py: `RobustScraper.is_valid_html` -/

/-- The structural HTML markers among the validator's indicators. -/
def structural_markers : List PyStr :=
  [pystr "<html", pystr "<head", pystr "<body", pystr "<!doctype"]

/-- The domain keywords among the validator's indicators. -/
def domain_keywords : List PyStr := [pystr "noutbuk", pystr "laptop"]

/-- The `html_indicators` list of `is_valid_html` (robust_scraper.py line 56):
`['<html', '<head', '<body', '<!doctype', 'noutbuk', 'laptop']`. -/
def html_indicators : List PyStr := structural_markers ++ domain_keywords

/-- Model of `RobustScraper.is_valid_html` (robust_scraper.py lines 50-59):
`if not text or len(text) < 100: return False`, then
`any(indicator in text_lower for indicator in html_indicators)`. -/
def is_valid_html (text : PyStr) : Bool :=
  if decide (text = []) || decide (text.length < 100) then false
  else
    let text_lower := pyLower text
    html_indicators.any (fun indicator => containsSub indicator text_lower)

/-! ## robust_scraper.py: `RobustScraper.parse_products`

A matched element is modelled by the facts the loop body reads from it: its
tag name, the container reached by `find_parent('div')` when the element is an
anchor, the element itself viewed as a container otherwise, and its own
`href` attribute (`element.get('href', '')`, defaulting to the empty string).
A container is modelled by the result of each `select_one` sub-query:
`none` when the sub-query finds nothing, otherwise the text / attribute the
code reads from the found node.  `urljoin` is the Python standard-library
function, supplied as a parameter. -/

/-- The sub-query results `parse_products` reads from a product container. -/
structure RContainer where
  /-- `select_one('.products-name, [class*="name"], .title')`, stripped text. -/
  nameText : Option PyStr
  /-- `select_one('.price-val, [class*="price"]')`, stripped text. -/
  priceText : Option PyStr
  /-- `select_one('a[href*="/elanlar/"]')`, its `get('href', '')` value. -/
  linkHref : Option PyStr
  /-- `select_one('.products-created')`, stripped text. -/
  createdText : Option PyStr
  deriving DecidableEq

/-- One element matched by a selector in `parse_products`. -/
structure RElement where
  /-- The tag name (`element.name`). -/
  tag : PyStr
  /-- The element itself as a container (used when the tag is not `a`). -/
  asContainer : RContainer
  /-- `element.find_parent('div')` (used when the tag is `a`). -/
  parentDiv : Option RContainer
  /-- `element.get('href', '')`. -/
  href : PyStr
  deriving DecidableEq

/-- One record produced by `parse_products` (the dict built at lines
199-205 of robust_scraper.py; `strategy` is the selector that matched). -/
structure RProduct where
  name : PyStr
  price : PyStr
  location : PyStr
  url : PyStr
  strategy : PyStr
  deriving DecidableEq

/-- The selector list of `parse_products` (robust_scraper.py lines 152-156). -/
def robust_selectors : List PyStr :=
  [pystr "div.products-i", pystr "div[data-ad-id]",
   pystr "a[href*=\"/elanlar/elektronika/noutbuklar/\"]"]

/-- The `base_url` of both scraper classes. -/
def base_url : PyStr := pystr "https://tap.az"

/-- Model of the per-element body of `parse_products` (robust_scraper.py lines
164-206): resolve the product container, read name / price / url / location
with `"N/A"` defaults, and keep the record only when a name was found and at
least one of price and url was found. -/
def extract_product (urljoin : PyStr → PyStr → PyStr) (base selector : PyStr)
    (element : RElement) : Option RProduct :=
  let product_div :=
    if element.tag = pystr "a" then element.parentDiv else some element.asContainer
  match product_div with
  | none => none
  | some product_div =>
    let name := match product_div.nameText with
      | some t => t
      | none => pystr "N/A"
    let price := match product_div.priceText with
      | some t => t
      | none => pystr "N/A"
    let url := match product_div.linkHref with
      | some h => urljoin base h
      | none =>
        if element.tag = pystr "a" then urljoin base element.href else pystr "N/A"
    let location := match product_div.createdText with
      | some created_text =>
        if containsSub (pystr ",") created_text then
          pyStripWs (created_text.takeWhile (fun c => c ≠ ','))
        else pystr "N/A"
      | none => pystr "N/A"
    if name ≠ pystr "N/A" ∧ (price ≠ pystr "N/A" ∨ url ≠ pystr "N/A") then
      some ⟨name, price, location, url, selector⟩
    else none

/-- The selector loop of `parse_products` (robust_scraper.py lines 158-213):
skip a selector when it matches no elements; otherwise extract from its first
20 elements and stop only when that produced at least one record (`if
products: break`), falling through to the next selector otherwise. -/
def parse_products_go (urljoin : PyStr → PyStr → PyStr) (base : PyStr)
    (select : PyStr → List RElement) : List PyStr → List RProduct
  | [] => []
  | selector :: rest =>
    let elements := select selector
    if elements = [] then parse_products_go urljoin base select rest
    else
      let products := (elements.take 20).filterMap (extract_product urljoin base selector)
      if products = [] then parse_products_go urljoin base select rest
      else products

/-- Model of `RobustScraper.parse_products` (robust_scraper.py lines 141-216).
`select` abstracts `BeautifulSoup.select` on the page being parsed. -/
def parse_products (urljoin : PyStr → PyStr → PyStr)
    (select : PyStr → List RElement) : List RProduct :=
  parse_products_go urljoin base_url select robust_selectors

/-! ## laptops.py: text cleanup, brand table, `_parse_listings_from_html` -/

/-- The `replacements` dict of `_clean_text` (laptops.py lines 124-127) as the
Python lexer reads it: the intended curly-quote entries were mangled to ASCII
in the source, so the literal parses as the duplicate identity entry
`'"': '"'`, one entry whose key is the seven-character triple-quoted string
`: "'", ` with value `'`, and the three HTML-entity entries. -/
def clean_replacements : List (PyStr × PyStr) :=
  [(pystr "\"", pystr "\""),
   (pystr ": \"'\", ", pystr "'"),
   (pystr "&quot;", pystr "\""),
   (pystr "&#39;", pystr "'"),
   (pystr "&amp;", pystr "&")]

/-- Model of `TapAzScraperFixed._clean_text` (laptops.py lines 115-132). -/
def _clean_text (text : PyStr) : PyStr :=
  if text = [] then []
  else
    let text := pyStripWs text
    let text := strReplace (pystr "\r") (pystr " ") (strReplace (pystr "\n") (pystr " ") text)
    let text := List.intercalate (pystr " ") (pySplitWs text)
    clean_replacements.foldl (fun t pr => strReplace pr.1 pr.2 t) text

/-- The `brands` keyword table of `_extract_brand` (laptops.py lines 137-148),
in dict insertion order. -/
def brand_table : List (PyStr × List PyStr) :=
  [(pystr "Apple", [pystr "apple", pystr "macbook"]),
   (pystr "Lenovo", [pystr "lenovo", pystr "thinkpad", pystr "ideapad", pystr "legion"]),
   (pystr "ASUS", [pystr "asus", pystr "zenbook", pystr "vivobook", pystr "rog", pystr "tuf"]),
   (pystr "HP", [pystr "hp", pystr "pavilion", pystr "envy", pystr "omen", pystr "victus",
                 pystr "probook", pystr "elitebook"]),
   (pystr "Dell", [pystr "dell", pystr "inspiron", pystr "latitude", pystr "precision",
                   pystr "vostro", pystr "alienware"]),
   (pystr "Acer", [pystr "acer", pystr "aspire", pystr "predator", pystr "nitro", pystr "swift"]),
   (pystr "Samsung", [pystr "samsung"]),
   (pystr "MSI", [pystr "msi"]),
   (pystr "Toshiba", [pystr "toshiba"]),
   (pystr "Huawei", [pystr "huawei", pystr "matebook"])]

/-- Model of `TapAzScraperFixed._extract_brand` (laptops.py lines 134-154):
first brand whose keyword list has a substring hit in the lowered name,
defaulting to `Other`. -/
def _extract_brand (name : PyStr) : PyStr :=
  let name_lower := pyLower name
  match brand_table.find? (fun br => br.2.any (fun kw => containsSub kw name_lower)) with
  | some br => br.1
  | none => pystr "Other"

/-- The sub-query results `_parse_listings_from_html` reads from one product
container (laptops.py lines 206-259).  Each `find` chain is modelled by its
net result; `link` and `img` are doubly optional because the found node's
attribute lookup can itself return `None`. -/
structure LContainer where
  /-- `container.find(attrs={'data-ad-id': True})`, its `data-ad-id` value. -/
  dataAdId : Option PyStr
  /-- The name node (`div.products-name`, else any class containing `name`),
  its raw `get_text()`. -/
  nameText : Option PyStr
  /-- The price node (`span.price-val`, else any class containing `price`),
  its `get_text(strip=True)`. -/
  priceText : Option PyStr
  /-- `span.price-cur` text, when present. -/
  currencyText : Option PyStr
  /-- `div.products-created` text, when present. -/
  locationText : Option PyStr
  /-- The link node (`a.products-link`, else any `a`): `none` when no anchor
  exists, otherwise its `get('href')` value. -/
  link : Option (Option PyStr)
  /-- The first `img` node: `none` when absent, otherwise its `get('src')`. -/
  img : Option (Option PyStr)
  /-- `str(container)`, the serialized markup searched for flag tokens. -/
  serialized : PyStr
  deriving DecidableEq

/-- The `LaptopListing` dataclass of laptops.py (lines 20-34). -/
structure LaptopListing where
  id : PyStr
  name : PyStr
  price : PyStr
  currency : PyStr
  location : PyStr
  brand : PyStr
  is_shop : Bool
  is_vip : Bool
  is_featured : Bool
  is_bumped : Bool
  url : PyStr
  image_url : PyStr
  scraped_at : PyStr
  deriving DecidableEq

/-- The selector list of `_parse_listings_from_html` (laptops.py lines
168-177). -/
def laptops_selectors : List PyStr :=
  [pystr "div.products-i", pystr "div[class*=\"products\"]", pystr ".product-item",
   pystr ".listing-item", pystr "div[data-ad-id]", pystr ".products-shop",
   pystr ".card", pystr "article"]

/-- The selector cascade of `_parse_listings_from_html` (laptops.py lines
179-188): the first selector returning at least one container wins. -/
def first_matching (select : PyStr → List LContainer) :
    List PyStr → Option (PyStr × List LContainer)
  | [] => none
  | s :: rest =>
    let containers := select s
    if containers = [] then first_matching select rest else some (s, containers)

/-- Model of the per-container body of `_parse_listings_from_html` (laptops.py
lines 206-285): `i` is the enumeration index (used for the fallback id), `now`
the current clock reading (`datetime.now().isoformat()`).  A container whose
name or price sub-query fails is skipped (`continue`). -/
def parse_listing (urljoin : PyStr → PyStr → PyStr) (base now : PyStr) (i : Nat)
    (container : LContainer) : Option LaptopListing :=
  let product_id := match container.dataAdId with
    | some v => v
    | none => pystr "unknown_" ++ pystr (toString i)
  match container.nameText with
  | none => none
  | some nt =>
    let product_name := _clean_text nt
    match container.priceText with
    | none => none
    | some price =>
      let currency := match container.currencyText with
        | some c => c
        | none => pystr "AZN"
      let location := match container.locationText with
        | some l => l
        | none => pystr "Unknown"
      let product_url := match container.link with
        | some (some href) => if href = [] then [] else urljoin base href
        | some none => []
        | none => []
      let image_url := match container.img with
        | some src => match src with
          | some s => s
          | none => []
        | none => []
      some
        { id := product_id
          name := product_name
          price := price
          currency := currency
          location := location
          brand := _extract_brand product_name
          is_shop := containsSub (pystr "products-shop") container.serialized
          is_vip := containsSub (pystr "vipped") container.serialized
          is_featured := containsSub (pystr "featured") container.serialized
          is_bumped := containsSub (pystr "bumped") container.serialized
          url := product_url
          image_url := image_url
          scraped_at := now }

/-- Model of `TapAzScraperFixed._parse_listings_from_html` (laptops.py lines
156-287).  `select` abstracts `BeautifulSoup.select` on the page. -/
def _parse_listings_from_html (urljoin : PyStr → PyStr → PyStr) (now : PyStr)
    (select : PyStr → List LContainer) : List LaptopListing :=
  match first_matching select laptops_selectors with
  | none => []
  | some sc =>
    (sc.2.enum).filterMap (fun ic => parse_listing urljoin base_url now ic.1 ic.2)

/-! ## robust_scraper.py: `RobustScraper.extract_next_cursor` -/

/-- The pieces of the page `extract_next_cursor` queries: the
`div.pagination` node, its first `a` descendant, and that anchor's `href`
attribute. -/
structure PagAnchor where
  href : Option PyStr
  deriving DecidableEq

/-- The `div.pagination` node, holding its first anchor if any. -/
structure PagDiv where
  firstAnchor : Option PagAnchor
  deriving DecidableEq

/-- A page as seen by the cursor resolver. -/
structure CursorPage where
  pagination : Option PagDiv
  deriving DecidableEq

/-- Model of `re.search(r'cursor=([^&]+)', href)`: at the first position where
the literal `cursor=` is followed by at least one non-`&` character, return
the maximal run of non-`&` characters after it. -/
def find_cursor_match : PyStr → Option PyStr
  | [] => none
  | c :: rest =>
    if (pystr "cursor=").isPrefixOf (c :: rest) then
      let tok := ((c :: rest).drop (pystr "cursor=").length).takeWhile (fun ch => ch ≠ '&')
      if tok = [] then find_cursor_match rest else some tok
    else find_cursor_match rest

/-- Model of `RobustScraper.extract_next_cursor` (robust_scraper.py lines
218-234): `None` unless the pagination block, its first link, and a nonempty
`href` containing a `cursor=` token are all present. -/
def extract_next_cursor (page : CursorPage) : Option PyStr :=
  match page.pagination with
  | none => none
  | some pag =>
    match pag.firstAnchor with
    | none => none
    | some next_link =>
      match next_link.href with
      | none => none
      | some href =>
        if href = [] then none
        else if containsSub (pystr "cursor=") href then find_cursor_match href
        else none

/-! ## robust_scraper.py: the `scrape_all` session loop

`fetch` abstracts `scrape_page`: from the current cursor it yields the page's
products and next cursor (network, parsing and cursor extraction combined).
The loop is fuel-indexed: the fuel bounds the number of iterations, and fuel
exhaustion models an external interruption between pages (the real loop is
`while True`).  The result carries, besides the accumulated products, the
list of backup snapshots written by `save_results` during the run (each the
running total paired with the full accumulated list at that point) and the
number of pages fetched. -/

/-- Model of the `while True` body of `RobustScraper.scrape_all`
(robust_scraper.py lines 260-323), including the `max_pages` guard, the
empty-page break, the every-500-products backup write, and the
cursor-exhaustion break. -/
def scrape_all_go (fetch : Option PyStr → List RProduct × Option PyStr)
    (max_pages : Option Nat) :
    Nat → Option PyStr → Nat → List RProduct → Nat →
    List RProduct × List (Nat × List RProduct) × Nat
  | 0, _, _, all_products, _ => (all_products, [], 0)
  | fuel + 1, cursor, page_count, all_products, total_products =>
    let page_count := page_count + 1
    if (match max_pages with
        | some m => decide (m ≠ 0) && decide (page_count > m)
        | none => false) then
      (all_products, [], 0)
    else
      let pr := fetch cursor
      if pr.1 = [] then (all_products, [], 1)
      else
        let all_products := all_products ++ pr.1
        let total_products := total_products + pr.1.length
        let backups :=
          if total_products % 500 = 0 ∧ 0 < total_products then
            [(total_products, all_products)]
          else []
        match pr.2 with
        | none => (all_products, backups, 1)
        | some c =>
          let res := scrape_all_go fetch max_pages fuel (some c) page_count all_products
            total_products
          (res.1, backups ++ res.2.1, res.2.2 + 1)

/-- Model of `RobustScraper.scrape_all` entered with no cursor and empty
accumulators. -/
def scrape_all (fetch : Option PyStr → List RProduct × Option PyStr)
    (max_pages : Option Nat) (fuel : Nat) :
    List RProduct × List (Nat × List RProduct) × Nat :=
  scrape_all_go fetch max_pages fuel none 0 [] 0

/-! ## robust_scraper.py: the price parser in `main` (lines 399-406) -/

/-- The cleaned price string:
`p['price'].replace(' ', '').replace(',', '').replace('AZN', '')`. -/
def clean_price_of (p : PyStr) : PyStr :=
  strReplace (pystr "AZN") [] (strReplace (pystr ",") [] (strReplace (pystr " ") [] p))

/-- Model of Python `float()` on the strings reachable behind the `isdigit`
guard of the price analysis (strings of digits and dots): defined iff the
string has at most one dot and at least one digit, in which case it is the
exact rational value.  Other strings (never passed to `float` by the guarded
code) are mapped to `none`. -/
def pyFloatOfClean (s : PyStr) : Option ℚ :=
  match splitOnDot s with
  | [ip] => if pyIsDigit ip then some (natOfDigits ip) else none
  | [ip, fp] =>
    if ip.all pyIsDigitChar && fp.all pyIsDigitChar && decide (ip ≠ [] ∨ fp ≠ []) then
      some ((natOfDigits ip : ℚ) + (natOfDigits fp : ℚ) / ((10 : ℚ) ^ fp.length))
    else none
  | _ => none

/-- Model of the price-analysis step of `main` (robust_scraper.py lines
399-406) for one price string: clean it, and when the dot-stripped remainder
passes `isdigit`, take `float` of the cleaned string; any failure (guard false
or `float` raising, both swallowed by the surrounding `try`) yields `none`. -/
def parse_price (p : PyStr) : Option ℚ :=
  let clean_price := clean_price_of p
  if decide (clean_price ≠ []) && pyIsDigit (strReplace (pystr ".") [] clean_price) then
    pyFloatOfClean clean_price
  else none

/-! ## Definitions stating claim properties

These do not model source code; they state, in the claims' own words,
properties the theorems below compare against the modelled code. -/

/-- Follows the claim's wording for the robust selector cascade: the first
selector in the ordered list that returns at least one matched container. -/
def spec_first_selector_with_matches (select : PyStr → List RElement) :
    List PyStr → Option PyStr
  | [] => none
  | s :: rest =>
    if select s = [] then spec_first_selector_with_matches select rest else some s

/-- The first selector whose first 20 matches yield at least one extracted
record — the selector `parse_products` actually commits to. -/
def first_yielding_selector (urljoin : PyStr → PyStr → PyStr) (base : PyStr)
    (select : PyStr → List RElement) : List PyStr → Option PyStr
  | [] => none
  | s :: rest =>
    if ((select s).take 20).filterMap (extract_product urljoin base s) = [] then
      first_yielding_selector urljoin base select rest
    else some s

/-- Erase the wall-clock field of a listing, leaving the fields determined by
the page alone. -/
def erase_scraped_at (l : LaptopListing) : LaptopListing := { l with scraped_at := [] }

/-! ## Concrete fixtures used by witnesses and counterexamples -/

/-- A stand-in for `gzip.decompress` that succeeds with the byte `0x68`. -/
def gz104 : List Nat → Option (List Nat) := fun _ => some [104]

/-- A stand-in for a decompressor that always fails (raises). -/
def decNone : List Nat → Option (List Nat) := fun _ => none

/-- A validator fixture: a usable page (over 100 characters, HTML markers and
domain keywords present). -/
def validText : PyStr :=
  pystr "<html><head><title>Noutbuklar - tap.az</title></head><body><div class=\"products-i\">Lenovo ThinkPad noutbuk elanlari</div></body></html>"

/-- A concrete stand-in for `urllib.parse.urljoin` on the inputs appearing in
the fixtures (base without trailing slash, absolute-path href):
concatenation. -/
def urljoin0 : PyStr → PyStr → PyStr := fun b h => b ++ h

/-- A container with every sub-query empty (no name, price, link or date). -/
def emptyRContainer : RContainer :=
  { nameText := none, priceText := none, linkHref := none, createdText := none }

/-- A `div` element none of whose sub-queries match: extraction skips it. -/
def elBad : RElement :=
  { tag := pystr "div", asContainer := emptyRContainer, parentDiv := none, href := [] }

/-- A `div` element with a name and a price: extraction keeps it. -/
def elGood : RElement :=
  { tag := pystr "div"
    asContainer :=
      { nameText := some (pystr "Lenovo ThinkPad X1"), priceText := some (pystr "1 200"),
        linkHref := none, createdText := none }
    parentDiv := none, href := [] }

/-- A `div` element with a name and a link but no price: extraction keeps it
with the sentinel price `N/A`. -/
def elNoPrice : RElement :=
  { tag := pystr "div"
    asContainer :=
      { nameText := some (pystr "Laptop X"), priceText := none,
        linkHref := some (pystr "/elanlar/elektronika/noutbuklar/123"), createdText := none }
    parentDiv := none, href := [] }

/-- A page on which the first selector matches only the unusable element and
the second selector matches the usable one. -/
def select0 : PyStr → List RElement := fun s =>
  if s = pystr "div.products-i" then [elBad]
  else if s = pystr "div[data-ad-id]" then [elGood]
  else []

/-- A page on which the first selector matches only the price-less element. -/
def select7 : PyStr → List RElement := fun s =>
  if s = pystr "div.products-i" then [elNoPrice] else []

/-- A laptops-side container with name and price present. -/
def lGood : LContainer :=
  { dataAdId := some (pystr "4567890"), nameText := some (pystr "Macbook Pro 14"),
    priceText := some (pystr "2 500"), currencyText := some (pystr "AZN"),
    locationText := some (pystr "Bakı"), link := some (some (pystr "/elanlar/e/n/4567890")),
    img := none, serialized := pystr "<div class=\"products-i vipped\">...</div>" }

/-- A laptops-side container whose name sub-query fails. -/
def lNoName : LContainer :=
  { dataAdId := none, nameText := none, priceText := some (pystr "300"),
    currencyText := none, locationText := none, link := none, img := none,
    serialized := [] }

/-- A laptops-side page: the first selector matches the two containers above. -/
def select9 : PyStr → List LContainer := fun s =>
  if s = pystr "div.products-i" then [lNoName, lGood] else []

/-- A sample scraped product record. -/
def prodA : RProduct :=
  ⟨pystr "A", pystr "100", pystr "N/A", pystr "https://tap.az/a", pystr "div.products-i"⟩

/-- A second sample scraped product record. -/
def prodB : RProduct :=
  ⟨pystr "B", pystr "200", pystr "N/A", pystr "https://tap.az/b", pystr "div.products-i"⟩

/-- A fetch oracle whose every page yields two products and a next cursor. -/
def fetch2 : Option PyStr → List RProduct × Option PyStr := fun _ =>
  ([prodA, prodB], some (pystr "next"))

/-- A page oracle yielding one product per page. -/
def products1 : Option PyStr → List RProduct := fun _ => [prodA]

/-- A page oracle whose pages have no pagination block at all. -/
def dom0 : Option PyStr → CursorPage := fun _ => ⟨none⟩

/-- The fetch function induced by `products1` and `dom0` through the cursor
resolver, as `scrape_page` wires them together. -/
def fetchC6 : Option PyStr → List RProduct × Option PyStr := fun c =>
  (products1 c, extract_next_cursor (dom0 c))

/-- The record `parse_products` extracts from `elGood` under the second
selector. -/
def rGood : RProduct :=
  ⟨pystr "Lenovo ThinkPad X1", pystr "1 200", pystr "N/A", pystr "N/A",
   pystr "div[data-ad-id]"⟩

/-- The record `parse_products` extracts from `elNoPrice` under the first
selector: note the sentinel price. -/
def rNoPrice : RProduct :=
  ⟨pystr "Laptop X", pystr "N/A", pystr "N/A",
   pystr "https://tap.az/elanlar/elektronika/noutbuklar/123", pystr "div.products-i"⟩

/-- The listing `_parse_listings_from_html` extracts from `lGood` (at
enumeration index 1, clock reading `t1`). -/
def rGoodL : LaptopListing :=
  { id := pystr "4567890", name := pystr "Macbook Pro 14", price := pystr "2 500",
    currency := pystr "AZN", location := pystr "Bakı", brand := pystr "Apple",
    is_shop := false, is_vip := true, is_featured := false, is_bumped := false,
    url := pystr "https://tap.az/elanlar/e/n/4567890", image_url := [],
    scraped_at := pystr "t1" }

/-! ## Helper lemmas -/

/-- `containsSub` decides substring containment (`List.IsInfix`). -/
theorem containsSub_iff (pat s : PyStr) : containsSub pat s = true ↔ pat <:+: s := by
  induction s with
  | nil =>
    rw [containsSub, List.isPrefixOf_iff_prefix, List.prefix_nil, List.infix_nil]
  | cons c rest ih =>
    rw [containsSub, Bool.or_eq_true, List.isPrefixOf_iff_prefix, ih, List.infix_cons_iff]

/-- A body starting with the gzip magic bytes is never valid UTF-8: the second
byte `0x8B` is a stray continuation byte. -/
theorem utf8Decode_of_gzip_magic (content : List Nat)
    (h : gzipMagic.isPrefixOf content = true) : utf8Decode content = none := by
  rw [List.isPrefixOf_iff_prefix] at h
  obtain ⟨t, ht⟩ := h
  subst ht
  show utf8DecodeFuel (t.length + 1 + 1) (0x1f :: 0x8b :: t) = none
  have hs1 : utf8Step 0x1f (0x8b :: t) = some (0x1f, 0x8b :: t) := by
    norm_num [utf8Step]
  have hs2 : utf8Step 0x8b t = none := by
    norm_num [utf8Step]
  have h3 : utf8DecodeFuel (t.length + 1) (0x8b :: t) = none := by
    rw [utf8DecodeFuel]
    simp only [hs2]
  rw [utf8DecodeFuel]
  simp only [hs1, h3, Option.map_none']

/-- A successful `cursor=` regex search implies the href contains the literal
`cursor=` and is nonempty. -/
theorem find_cursor_match_some (h : PyStr) (tok : PyStr)
    (hs : find_cursor_match h = some tok) :
    containsSub (pystr "cursor=") h = true ∧ h ≠ [] := by
  induction h with
  | nil => simp [find_cursor_match] at hs
  | cons c rest ih =>
    refine ⟨?_, by simp⟩
    rw [find_cursor_match] at hs
    by_cases hp : (pystr "cursor=").isPrefixOf (c :: rest) = true
    · simp [containsSub, hp]
    · rw [if_neg (by simpa using hp)] at hs
      have := (ih hs).1
      simp [containsSub, this]

/-- The selector loop of `parse_products` commits to the first selector whose
first 20 matches yield at least one record. -/
theorem parse_products_go_eq (urljoin : PyStr → PyStr → PyStr) (base : PyStr)
    (select : PyStr → List RElement) (sels : List PyStr) :
    parse_products_go urljoin base select sels =
      (match first_yielding_selector urljoin base select sels with
       | none => []
       | some s => ((select s).take 20).filterMap (extract_product urljoin base s)) := by
  induction sels with
  | nil => rfl
  | cons s rest ih =>
    rw [parse_products_go, first_yielding_selector]
    by_cases he : select s = []
    · rw [if_pos he, ih]
      have hp : ((select s).take 20).filterMap (extract_product urljoin base s) = [] := by
        rw [he]; rfl
      rw [if_pos hp]
    · rw [if_neg he]
      by_cases hp : ((select s).take 20).filterMap (extract_product urljoin base s) = []
      · rw [if_pos hp, if_pos hp, ih]
      · rw [if_neg hp, if_neg hp]

/-- Every record `extract_product` emits carries the selector it was extracted
under in its `strategy` field. -/
theorem extract_product_strategy (urljoin : PyStr → PyStr → PyStr)
    (base selector : PyStr) (element : RElement) (r : RProduct)
    (h : extract_product urljoin base selector element = some r) :
    r.strategy = selector := by
  simp only [extract_product] at h
  repeat' split at h
  all_goals
    first
    | exact Option.noConfusion h
    | (simp only [Option.some.injEq] at h; rw [← h])

/-- `parse_listing` is insensitive to the clock except in the `scraped_at`
field. -/
theorem parse_listing_erase (urljoin : PyStr → PyStr → PyStr)
    (base now1 now2 : PyStr) (i : Nat) (c : LContainer) :
    (parse_listing urljoin base now1 i c).map erase_scraped_at =
      (parse_listing urljoin base now2 i c).map erase_scraped_at := by
  simp only [parse_listing]
  cases hn : c.nameText with
  | none => rfl
  | some nt =>
    cases hp : c.priceText with
    | none => rfl
    | some pt => simp [erase_scraped_at]

/-- `parse_listing` stamps the clock reading into the `scraped_at` field. -/
theorem parse_listing_scraped_at (urljoin : PyStr → PyStr → PyStr)
    (base now : PyStr) (i : Nat) (c : LContainer) (r : LaptopListing)
    (h : parse_listing urljoin base now i c = some r) : r.scraped_at = now := by
  simp only [parse_listing] at h
  cases hn : c.nameText with
  | none =>
    simp only [hn] at h
    exact Option.noConfusion h
  | some nt =>
    simp only [hn] at h
    cases hp : c.priceText with
    | none =>
      simp only [hp] at h
      exact Option.noConfusion h
    | some pt =>
      simp only [hp, Option.some.injEq] at h
      rw [← h]


/-! ## Claim theorems -/

/-- C1: The payload decode step `_decompress_response` never throws on
malformed bytes — every branch is total, each library failure falling through
to the next strategy and ultimately to `response.text` — and for every byte
payload: if the payload is plain UTF-8 text it is returned unchanged
(decoded), and if it carries valid gzip framing (magic bytes `1F 8B` with the
gzip stream decompressing to UTF-8 text) the result equals manually
gzip-decompressing it and UTF-8-decoding that. -/
theorem C1_decompress_response_correct (gz zl zlr : List Nat → Option (List Nat))
    (content ftext : List Nat) :
    (∀ t, utf8Decode content = some t →
      decompress_response gz zl zlr ⟨content, ftext⟩ = t) ∧
    (∀ d t, gzipMagic.isPrefixOf content = true → gz content = some d →
      utf8Decode d = some t → decompress_response gz zl zlr ⟨content, ftext⟩ = t) ∧
    ((∃ t, utf8Decode content = some t ∧
        decompress_response gz zl zlr ⟨content, ftext⟩ = t) ∨
     (∃ d t, gz content = some d ∧ utf8Decode d = some t ∧
        decompress_response gz zl zlr ⟨content, ftext⟩ = t) ∨
     (∃ d t, zl content = some d ∧ utf8Decode d = some t ∧
        decompress_response gz zl zlr ⟨content, ftext⟩ = t) ∨
     (∃ d t, zlr content = some d ∧ utf8Decode d = some t ∧
        decompress_response gz zl zlr ⟨content, ftext⟩ = t) ∨
     decompress_response gz zl zlr ⟨content, ftext⟩ = ftext) := by
  refine ⟨?_, ?_, ?_⟩
  · intro t ht
    simp [decompress_response, ht]
  · intro d t hmagic hgz hd
    have hnone : utf8Decode content = none := utf8Decode_of_gzip_magic content hmagic
    simp [decompress_response, hnone, hmagic, hgz, hd]
  · cases hu : utf8Decode content with
    | some t => exact Or.inl ⟨t, rfl, by simp [decompress_response, hu]⟩
    | none =>
      cases h2 : (if gzipMagic.isPrefixOf content then gz content
                  else none).bind utf8Decode with
      | some t =>
        obtain ⟨d, hif, hd⟩ := Option.bind_eq_some.mp h2
        have hgz : gz content = some d := by
          split at hif
          · exact hif
          · exact Option.noConfusion hif
        refine Or.inr (Or.inl ⟨d, t, hgz, hd, ?_⟩)
        simp only [decompress_response, hu]
        rw [h2]
      | none =>
        cases h3 : (zl content).bind utf8Decode with
        | some t =>
          obtain ⟨d, hzl, hd⟩ := Option.bind_eq_some.mp h3
          refine Or.inr (Or.inr (Or.inl ⟨d, t, hzl, hd, ?_⟩))
          simp only [decompress_response, hu]
          rw [h2, h3]
        | none =>
          cases h4 : (zlr content).bind utf8Decode with
          | some t =>
            obtain ⟨d, hzlr, hd⟩ := Option.bind_eq_some.mp h4
            refine Or.inr (Or.inr (Or.inr (Or.inl ⟨d, t, hzlr, hd, ?_⟩)))
            simp only [decompress_response, hu]
            rw [h2, h3, h4]
          | none =>
            refine Or.inr (Or.inr (Or.inr (Or.inr ?_)))
            simp only [decompress_response, hu]
            rw [h2, h3, h4]

/-- Witness for C1: a plain-UTF-8 body is returned decoded unchanged, and a
gzip-framed body is decompressed (here with a stub decompressor). -/
theorem C1_witness :
    decompress_response decNone decNone decNone ⟨[104, 105], [7]⟩ = [104, 105] ∧
    decompress_response gz104 decNone decNone ⟨[0x1f, 0x8b, 0x00], [7]⟩ = [104] :=
  ⟨(C1_decompress_response_correct decNone decNone decNone [104, 105] [7]).1
      [104, 105] (by decide),
   (C1_decompress_response_correct gz104 decNone decNone [0x1f, 0x8b, 0x00] [7]).2.1
      [104] [104] (by decide) (by decide) (by decide)⟩

/-- C2: the payload validator `is_valid_html` returns usable exactly when the
decoded text has at least the minimum length of 100 characters and contains
(case-insensitively) a structural HTML marker or a domain keyword. -/
theorem C2_is_valid_html_iff (text : PyStr) :
    is_valid_html text = true ↔
      100 ≤ text.length ∧
        ((∃ m ∈ structural_markers, m <:+: pyLower text) ∨
         (∃ k ∈ domain_keywords, k <:+: pyLower text)) := by
  unfold is_valid_html
  by_cases hc : (decide (text = []) || decide (text.length < 100)) = true
  · rw [if_pos hc]
    constructor
    · intro hfalse
      exact absurd hfalse (by simp)
    · rintro ⟨hlen, -⟩
      have hc2 : text = [] ∨ text.length < 100 := by simpa using hc
      rcases hc2 with hx | hx
      · rw [hx] at hlen
        simp at hlen
      · omega
  · rw [if_neg hc]
    have hlen : 100 ≤ text.length := by
      by_contra hlt
      have hsm : text.length < 100 := by omega
      exact hc (by simp [hsm])
    show html_indicators.any (fun indicator => containsSub indicator (pyLower text)) =
        true ↔ _
    rw [List.any_eq_true]
    constructor
    · rintro ⟨ind, hmem, hcs⟩
      refine ⟨hlen, ?_⟩
      rw [html_indicators] at hmem
      rcases List.mem_append.mp hmem with hm | hm
      · exact Or.inl ⟨ind, hm, (containsSub_iff ind (pyLower text)).mp hcs⟩
      · exact Or.inr ⟨ind, hm, (containsSub_iff ind (pyLower text)).mp hcs⟩
    · rintro ⟨-, h | h⟩
      · obtain ⟨m, hm, hinf⟩ := h
        refine ⟨m, ?_, (containsSub_iff m (pyLower text)).mpr hinf⟩
        rw [html_indicators]
        exact List.mem_append.mpr (Or.inl hm)
      · obtain ⟨k, hk, hinf⟩ := h
        refine ⟨k, ?_, (containsSub_iff k (pyLower text)).mpr hinf⟩
        rw [html_indicators]
        exact List.mem_append.mpr (Or.inr hk)

set_option maxRecDepth 10000 in
/-- Witness for C2: a concrete valid page passes the validator, hence has the
required length and an indicator hit. -/
theorem C2_witness :
    100 ≤ validText.length ∧
      ((∃ m ∈ structural_markers, m <:+: pyLower validText) ∨
       (∃ k ∈ domain_keywords, k <:+: pyLower validText)) :=
  (C2_is_valid_html_iff validText).mp (by decide)


/-- C3 counterexample: on the page `select0` the first selector returning at
least one matched container is `div.products-i`, yet the records produced come
from the later selector `div[data-ad-id]`, because the first selector's only
container fails the mandatory-field check and `parse_products` falls through
(`if products: break` rather than `if elements: break`). -/
theorem C3_counterexample :
    spec_first_selector_with_matches select0 robust_selectors =
      some (pystr "div.products-i") ∧
    (parse_products urljoin0 select0).map RProduct.strategy =
      [pystr "div[data-ad-id]"] ∧
    pystr "div[data-ad-id]" ≠ pystr "div.products-i" :=
  ⟨by decide, by decide, by decide⟩

/-- C3 (amended): `parse_products` commits to the first selector whose first
20 matches yield at least one record — a selector whose matches all fail the
mandatory-field check is passed over — and all records of one page carry that
single selector; results are never merged across selectors.
`_parse_listings_from_html` commits to the first selector with at least one
matched container. -/
theorem C3_selector_cascade (urljoin : PyStr → PyStr → PyStr)
    (select : PyStr → List RElement) (selectL : PyStr → List LContainer) :
    (first_yielding_selector urljoin base_url select robust_selectors = none →
      parse_products urljoin select = []) ∧
    (∀ s, first_yielding_selector urljoin base_url select robust_selectors = some s →
      parse_products urljoin select =
        ((select s).take 20).filterMap (extract_product urljoin base_url s)) ∧
    (∀ r, r ∈ parse_products urljoin select →
      first_yielding_selector urljoin base_url select robust_selectors =
        some r.strategy) ∧
    (∀ r1 r2, r1 ∈ parse_products urljoin select → r2 ∈ parse_products urljoin select →
      r1.strategy = r2.strategy) ∧
    (first_matching selectL laptops_selectors = none →
      ∀ now, _parse_listings_from_html urljoin now selectL = []) ∧
    (∀ s cs now, first_matching selectL laptops_selectors = some (s, cs) →
      _parse_listings_from_html urljoin now selectL =
        (cs.enum).filterMap (fun ic => parse_listing urljoin base_url now ic.1 ic.2)) := by
  have hmem : ∀ r, r ∈ parse_products urljoin select →
      first_yielding_selector urljoin base_url select robust_selectors =
        some r.strategy := by
    intro r hr
    rw [parse_products, parse_products_go_eq] at hr
    cases hfy : first_yielding_selector urljoin base_url select robust_selectors with
    | none => rw [hfy] at hr; exact absurd hr (by simp)
    | some s =>
      rw [hfy] at hr
      obtain ⟨el, -, hel⟩ := List.mem_filterMap.mp hr
      rw [extract_product_strategy urljoin base_url s el r hel]
  refine ⟨?_, ?_, hmem, ?_, ?_, ?_⟩
  · intro hfy
    rw [parse_products, parse_products_go_eq, hfy]
  · intro s hfy
    rw [parse_products, parse_products_go_eq, hfy]
  · intro r1 r2 h1 h2
    have e1 := hmem r1 h1
    have e2 := hmem r2 h2
    rw [e1] at e2
    exact Option.some.inj e2
  · intro hfm now
    rw [_parse_listings_from_html, hfm]
  · intro s cs now hfm
    rw [_parse_listings_from_html, hfm]

/-- Witness for C3 (amended): on `select0`, the committed selector is
`div[data-ad-id]` (the strategy of the extracted record), and the page's
records are exactly that selector's extractions. -/
theorem C3_witness :
    parse_products urljoin0 select0 =
      ((select0 (pystr "div[data-ad-id]")).take 20).filterMap
        (extract_product urljoin0 base_url (pystr "div[data-ad-id]")) ∧
    first_yielding_selector urljoin0 base_url select0 robust_selectors =
      some rGood.strategy :=
  ⟨(C3_selector_cascade urljoin0 select0 select9).2.1 (pystr "div[data-ad-id]")
      (by decide),
   (C3_selector_cascade urljoin0 select0 select9).2.2.1 rGood (by decide)⟩

/-- C10: `parse_products` caps its output at 20 records per page: the matches
of the chosen selector are truncated to the first 20 elements before
extraction. -/
theorem C10_parse_products_le_20 (urljoin : PyStr → PyStr → PyStr)
    (select : PyStr → List RElement) : (parse_products urljoin select).length ≤ 20 := by
  rw [parse_products, parse_products_go_eq]
  cases hfy : first_yielding_selector urljoin base_url select robust_selectors with
  | none => simp
  | some s =>
    simp only [hfy]
    calc (((select s).take 20).filterMap (extract_product urljoin base_url s)).length
        ≤ ((select s).take 20).length := List.length_filterMap_le _ _
      _ ≤ 20 := by simp


/-- C4: a matched container missing a mandatory field — the title, or (for a
non-anchor container) both price and url — is skipped and contributes no
record, while the rest of the processed containers are still extracted: in
`parse_products` a skipped element leaves the other extractions intact, and in
`_parse_listings_from_html` a name-less or price-less container is skipped
(`continue`) while every successfully parsed container's record reaches the
page's output. -/
theorem C4_skip_missing_fields (urljoin : PyStr → PyStr → PyStr) :
    (∀ b s el pd,
      (if el.tag = pystr "a" then el.parentDiv else some el.asContainer) = some pd →
      pd.nameText = none → extract_product urljoin b s el = none) ∧
    (∀ b s el pd,
      (if el.tag = pystr "a" then el.parentDiv else some el.asContainer) = some pd →
      el.tag ≠ pystr "a" → pd.priceText = none → pd.linkHref = none →
      extract_product urljoin b s el = none) ∧
    (∀ b s el xs ys, extract_product urljoin b s el = none →
      (xs ++ el :: ys).filterMap (extract_product urljoin b s) =
        xs.filterMap (extract_product urljoin b s) ++
          ys.filterMap (extract_product urljoin b s)) ∧
    (∀ b now i c, c.nameText = none → parse_listing urljoin b now i c = none) ∧
    (∀ b now i c, c.priceText = none → parse_listing urljoin b now i c = none) ∧
    (∀ now select s cs i c r, first_matching select laptops_selectors = some (s, cs) →
      (i, c) ∈ cs.enum → parse_listing urljoin base_url now i c = some r →
      r ∈ _parse_listings_from_html urljoin now select) := by
  refine ⟨?_, ?_, ?_, ?_, ?_, ?_⟩
  · intro b s el pd hpd hname
    simp [extract_product, hpd, hname]
  · intro b s el pd hpd htag hprice hlink
    rw [if_neg htag] at hpd
    have hpd2 := Option.some.inj hpd
    subst hpd2
    simp [extract_product, htag, hprice, hlink]
  · intro b s el xs ys h
    simp [List.filterMap_append, List.filterMap_cons, h]
  · intro b now i c hname
    simp [parse_listing, hname]
  · intro b now i c hprice
    cases hn : c.nameText with
    | none => simp [parse_listing, hn]
    | some nt => simp [parse_listing, hn, hprice]
  · intro now select s cs i c r hfm hmem hpl
    rw [_parse_listings_from_html, hfm]
    exact List.mem_filterMap.mpr ⟨(i, c), hmem, hpl⟩

/-- Witness for C4: the field-less element is skipped, its presence does not
disturb the neighbouring extraction, the name-less laptops container is
skipped, and the well-formed laptops container's record reaches the page
output. -/
theorem C4_witness :
    extract_product urljoin0 base_url (pystr "div.products-i") elBad = none ∧
    ([elBad, elGood].filterMap (extract_product urljoin0 base_url (pystr "div.products-i")) =
      List.filterMap (extract_product urljoin0 base_url (pystr "div.products-i")) [] ++
        [elGood].filterMap (extract_product urljoin0 base_url (pystr "div.products-i"))) ∧
    parse_listing urljoin0 base_url (pystr "t1") 0 lNoName = none ∧
    rGoodL ∈ _parse_listings_from_html urljoin0 (pystr "t1") select9 :=
  ⟨(C4_skip_missing_fields urljoin0).1 base_url (pystr "div.products-i") elBad
      elBad.asContainer (by decide) rfl,
   (C4_skip_missing_fields urljoin0).2.2.1 base_url (pystr "div.products-i") elBad
      [] [elGood] (by decide),
   (C4_skip_missing_fields urljoin0).2.2.2.1 base_url (pystr "t1") 0 lNoName rfl,
   (C4_skip_missing_fields urljoin0).2.2.2.2.2 (pystr "t1") select9
      (pystr "div.products-i") [lNoName, lGood] 1 lGood rGoodL (by decide) (by decide)
      (by decide)⟩

/-- C5: the price analysis of `main` never throws (every failure, including a
`float` error on a multi-dot remainder, yields no value), maps the five
specified inputs to 1200, 1200, none, none and 850.5, and yields none for
every input whose cleaned remainder is not a number of the form digits with an
optional decimal point. -/
theorem C5_price_parse_spec :
    parse_price (pystr "1 200 AZN") = some 1200 ∧
    parse_price (pystr "1,200") = some 1200 ∧
    parse_price (pystr "") = none ∧
    parse_price (pystr "N/A") = none ∧
    parse_price (pystr "850.50") = some (1701 / 2) ∧
    (∀ p, pyFloatOfClean (clean_price_of p) = none → parse_price p = none) := by
  refine ⟨by decide, by decide, by decide, by decide, ?_, ?_⟩
  · have h1 : clean_price_of (pystr "850.50") = pystr "850.50" := by decide
    have h2 : (decide (pystr "850.50" ≠ []) &&
        pyIsDigit (strReplace (pystr ".") [] (pystr "850.50"))) = true := by decide
    have h3 : splitOnDot (pystr "850.50") = [pystr "850", pystr "50"] := by decide
    have h4 : natOfDigits (pystr "850") = 850 := by decide
    have h5 : natOfDigits (pystr "50") = 50 := by decide
    unfold parse_price
    rw [h1]
    simp only [h2, if_true]
    unfold pyFloatOfClean
    rw [h3]
    simp only [h4, h5]
    norm_num [pystr]
    intro h
    exact absurd (h (by decide) (by decide) (by decide)) (by decide)
  · intro p hnone
    show (if _ then pyFloatOfClean (clean_price_of p) else none) = none
    split
    · exact hnone
    · rfl

/-- Witness for C5: a remainder with two dots passes the `isdigit` guard but
makes `float` raise; the swallowed exception yields no value. -/
theorem C5_witness : parse_price (pystr "8..5") = none :=
  C5_price_parse_spec.2.2.2.2.2 (pystr "8..5") (by decide)


/-- C6: the cursor resolver returns the token captured by the
`cursor=([^&]+)` search on the next link's href (e.g. `?cursor=abc123` yields
`abc123`), returns none when the pagination block, its link, a nonempty href
or a recognizable token is missing, and the `scrape_all` session loop fetches
no further page once a page's resolver returns none. -/
theorem C6_cursor_resolver :
    (∀ page : CursorPage, page.pagination = none → extract_next_cursor page = none) ∧
    (∀ pag : PagDiv, pag.firstAnchor = none → extract_next_cursor ⟨some pag⟩ = none) ∧
    (∀ a : PagAnchor, a.href = none → extract_next_cursor ⟨some ⟨some a⟩⟩ = none) ∧
    (∀ h : PyStr, find_cursor_match h = none →
      extract_next_cursor ⟨some ⟨some ⟨some h⟩⟩⟩ = none) ∧
    (∀ h tok, find_cursor_match h = some tok →
      extract_next_cursor ⟨some ⟨some ⟨some h⟩⟩⟩ = some tok) ∧
    extract_next_cursor
        ⟨some ⟨some ⟨some (pystr "https://tap.az/elanlar/elektronika/noutbuklar?cursor=abc123")⟩⟩⟩ =
      some (pystr "abc123") ∧
    (∀ (products : Option PyStr → List RProduct) (dom : Option PyStr → CursorPage)
        (cursor : Option PyStr) (fuel page_count : Nat) (acc : List RProduct)
        (total : Nat),
      extract_next_cursor (dom cursor) = none → products cursor ≠ [] →
      ∃ bks, scrape_all_go (fun c => (products c, extract_next_cursor (dom c))) none
          (fuel + 1) cursor page_count acc total = (acc ++ products cursor, bks, 1)) := by
  refine ⟨?_, ?_, ?_, ?_, ?_, by decide, ?_⟩
  · intro page h
    simp [extract_next_cursor, h]
  · intro pag h
    simp [extract_next_cursor, h]
  · intro a h
    simp [extract_next_cursor, h]
  · intro h hfind
    simp only [extract_next_cursor]
    split
    · rfl
    · split
      · exact hfind
      · rfl
  · intro h tok hfind
    obtain ⟨hcont, hne⟩ := find_cursor_match_some h tok hfind
    simp only [extract_next_cursor]
    rw [if_neg hne, if_pos hcont]
    exact hfind
  · intro products dom cursor fuel page_count acc total hnone hne
    refine ⟨if (total + (products cursor).length) % 500 = 0 ∧
        0 < total + (products cursor).length then
        [(total + (products cursor).length, acc ++ products cursor)] else [], ?_⟩
    simp only [scrape_all_go, hnone, hne]
    simp [hne]

/-- Witness for C6: a page with no pagination block resolves to none, and a
one-page session over such pages fetches exactly one page. -/
theorem C6_witness :
    extract_next_cursor ⟨none⟩ = none ∧
    (∃ bks, scrape_all_go fetchC6 none 1 none 0 [] 0 = ([] ++ products1 none, bks, 1)) :=
  ⟨C6_cursor_resolver.1 ⟨none⟩ rfl,
   C6_cursor_resolver.2.2.2.2.2.2 products1 dom0 none 0 0 [] 0 (by decide)
      (by decide)⟩

/-- C7 counterexample: `parse_products` keeps a container that has a name and
a url but no price, storing the sentinel string `N/A` — which the price parser
cannot parse — in the record's price field; the price is a raw string, never
null. -/
theorem C7_counterexample :
    (parse_products urljoin0 select7).map RProduct.price = [pystr "N/A"] ∧
    parse_price (pystr "N/A") = none :=
  ⟨by decide, by decide⟩

/-- C7 (amended): a record's price field always holds the raw page string:
`parse_products` stores the sentinel `N/A` when the price sub-query fails
(keeping the record only if a url was found), and otherwise the found text;
`_parse_listings_from_html` skips price-less containers and otherwise stores
the found text. -/
theorem C7_price_field_raw_string (urljoin : PyStr → PyStr → PyStr) :
    (∀ b s el pd r,
      (if el.tag = pystr "a" then el.parentDiv else some el.asContainer) = some pd →
      pd.priceText = none → extract_product urljoin b s el = some r →
      r.price = pystr "N/A") ∧
    (∀ b s el pd r t,
      (if el.tag = pystr "a" then el.parentDiv else some el.asContainer) = some pd →
      pd.priceText = some t → extract_product urljoin b s el = some r →
      r.price = t) ∧
    (∀ b now i c, c.priceText = none → parse_listing urljoin b now i c = none) ∧
    (∀ b now i c r t, c.priceText = some t → parse_listing urljoin b now i c = some r →
      r.price = t) := by
  refine ⟨?_, ?_, ?_, ?_⟩
  · intro b s el pd r hpd hprice hex
    simp only [extract_product, hpd, hprice] at hex
    repeat' split at hex
    all_goals
      first
      | exact Option.noConfusion hex
      | (simp only [Option.some.injEq] at hex; rw [← hex])
  · intro b s el pd r t hpd hprice hex
    simp only [extract_product, hpd, hprice] at hex
    repeat' split at hex
    all_goals
      first
      | exact Option.noConfusion hex
      | (simp only [Option.some.injEq] at hex; rw [← hex])
  · intro b now i c hprice
    cases hn : c.nameText with
    | none => simp [parse_listing, hn]
    | some nt => simp [parse_listing, hn, hprice]
  · intro b now i c r t hprice hpl
    simp only [parse_listing] at hpl
    cases hn : c.nameText with
    | none =>
      simp only [hn] at hpl
      exact Option.noConfusion hpl
    | some nt =>
      simp only [hn, hprice, Option.some.injEq] at hpl
      rw [← hpl]

/-- Witness for C7 (amended): the price-less container's record carries the
sentinel, and the laptops record carries the raw page text. -/
theorem C7_witness :
    rNoPrice.price = pystr "N/A" ∧ rGoodL.price = pystr "2 500" :=
  ⟨(C7_price_field_raw_string urljoin0).1 base_url (pystr "div.products-i") elNoPrice
      elNoPrice.asContainer rNoPrice (by decide) rfl (by decide),
   (C7_price_field_raw_string urljoin0).2.2.2 base_url (pystr "t1") 1 lGood rGoodL
      (pystr "2 500") rfl (by decide)⟩

/-- C8: evaluating the session loop at the claimed failing input — a session
interrupted after its first page, which yielded 2 of the 500
snapshot-threshold records — shows the 2 records accumulated but the list of
backup files written still empty: the backup write fires only when the running
total is exactly divisible by 500, and the interrupt handler writes nothing,
so the spec-promised complete output file with those 2 records does not
exist.  Even after three pages (6 records) nothing has been written. -/
theorem C8_no_backup_on_interrupt :
    scrape_all fetch2 none 1 = ([prodA, prodB], [], 1) ∧
    scrape_all fetch2 none 3 = ([prodA, prodB, prodA, prodB, prodA, prodB], [], 3) :=
  ⟨by decide, by decide⟩

/-- C9 counterexample: applying the laptops extraction rules to the same HTML
fixture twice, at two different wall-clock instants, yields different outputs —
`datetime.now()` is hidden global state reaching the records' `scraped_at`
field. -/
theorem C9_counterexample :
    _parse_listings_from_html urljoin0 (pystr "2025-09-01T10:00:00") select9 ≠
      _parse_listings_from_html urljoin0 (pystr "2025-09-01T10:00:01") select9 := by
  decide

/-- C9 (amended): parsing is deterministic up to the clock: two applications
of the laptops extraction rules to the same HTML agree on every field except
`scraped_at`, and each record's `scraped_at` equals the clock reading of its
run. -/
theorem C9_parse_deterministic_up_to_clock (urljoin : PyStr → PyStr → PyStr)
    (select : PyStr → List LContainer) (now1 now2 : PyStr) :
    ((_parse_listings_from_html urljoin now1 select).map erase_scraped_at =
      (_parse_listings_from_html urljoin now2 select).map erase_scraped_at) ∧
    (∀ r, r ∈ _parse_listings_from_html urljoin now1 select → r.scraped_at = now1) := by
  constructor
  · unfold _parse_listings_from_html
    cases hfm : first_matching select laptops_selectors with
    | none => rfl
    | some sc =>
      rw [List.map_filterMap, List.map_filterMap]
      have hfun : (fun ic : Nat × LContainer =>
          (parse_listing urljoin base_url now1 ic.1 ic.2).map erase_scraped_at) =
          (fun ic : Nat × LContainer =>
          (parse_listing urljoin base_url now2 ic.1 ic.2).map erase_scraped_at) :=
        funext (fun ic => parse_listing_erase urljoin base_url now1 now2 ic.1 ic.2)
      rw [hfun]
  · intro r hr
    unfold _parse_listings_from_html at hr
    cases hfm : first_matching select laptops_selectors with
    | none =>
      rw [hfm] at hr
      exact absurd hr (by simp)
    | some sc =>
      rw [hfm] at hr
      obtain ⟨ic, -, hpl⟩ := List.mem_filterMap.mp hr
      exact parse_listing_scraped_at urljoin base_url now1 ic.1 ic.2 r hpl

/-- Witness for C9 (amended): on the concrete fixture, the two runs agree
after erasing `scraped_at`, and the extracted record is stamped with its
run's clock. -/
theorem C9_witness :
    ((_parse_listings_from_html urljoin0 (pystr "t1") select9).map erase_scraped_at =
      (_parse_listings_from_html urljoin0 (pystr "t2") select9).map erase_scraped_at) ∧
    rGoodL.scraped_at = pystr "t1" :=
  ⟨(C9_parse_deterministic_up_to_clock urljoin0 select9 (pystr "t1") (pystr "t2")).1,
   (C9_parse_deterministic_up_to_clock urljoin0 select9 (pystr "t1") (pystr "t2")).2
      rGoodL (by decide)⟩


end TapAz
